import Mathlib

/-
Verification of the RayTracer repository core (vec3 / Ray / Color / camera
derivation) against its specification.  The C++ double-precision values are
embedded as exact rationals; `std::sqrt` forces the reals where it occurs.
Member functions of `vec3` are translated from src/Vec3.cpp; the `Ray` class
from src/Ray.h.  The free vector operators, `Color::write_color`'s body and
main.cpp are not present in the sources (only declarations and the spec
describe them), so those definitions are modelled from the spec and marked
as such in their doc comments.
-/

namespace RayTracer

/-- Embedding of the C++ value type `vec3` (src/Vec3.cpp): three
double-precision components stored in the member array `e`, with doubles
modelled as exact rationals and the array as a function on `Fin 3`. -/
structure vec3 where
  e : Fin 3 → ℚ

/-- Source `vec3::vec3()` (src/Vec3.cpp): default constructor, initializer
`e{0,0,0}`. -/
def vec3.zero : vec3 := ⟨![0, 0, 0]⟩

/-- Source `vec3::vec3(double e0, double e1, double e2)` (src/Vec3.cpp):
initializer `e{e0, e1, e2}`. -/
def vec3.mk3 (e0 e1 e2 : ℚ) : vec3 := ⟨![e0, e1, e2]⟩

/-- Source `vec3::x()` (src/Vec3.cpp): `return e[0];`. -/
def vec3.x (v : vec3) : ℚ := v.e 0

/-- Source `vec3::y()` (src/Vec3.cpp): `return e[1];`. -/
def vec3.y (v : vec3) : ℚ := v.e 1

/-- Source `vec3::z()` (src/Vec3.cpp): `return e[2];`. -/
def vec3.z (v : vec3) : ℚ := v.e 2

/-- Source unary `vec3::operator-()` (src/Vec3.cpp):
`return vec3(-e[0], -e[1], -e[2]);`. -/
def vec3.neg (v : vec3) : vec3 := vec3.mk3 (-(v.e 0)) (-(v.e 1)) (-(v.e 2))

/-- Source const `vec3::operator[](int i) const` (src/Vec3.cpp):
`return e[i];`.  An out-of-range `i` is undefined behavior in the source
(a caller precondition), so the index is embedded as `Fin 3`. -/
def vec3.get (v : vec3) (i : Fin 3) : ℚ := v.e i

/-- Source non-const `vec3::operator[](int i)` (src/Vec3.cpp): returns a
reference to `e[i]`; writing the value `a` through that reference replaces
component `i` of the object and nothing else, which is what this function
returns as the post-state.  Same `Fin 3` precondition as the const overload. -/
def vec3.set (v : vec3) (i : Fin 3) (a : ℚ) : vec3 := ⟨Function.update v.e i a⟩

/-- Source `vec3::operator+=(const vec3 &v)` (src/Vec3.cpp): the three
statements `e[0] += v.e[0]; e[1] += v.e[1]; e[2] += v.e[2];`, returning the
updated object (`*this`). -/
def vec3.addAssign (v w : vec3) : vec3 :=
  vec3.mk3 (v.e 0 + w.e 0) (v.e 1 + w.e 1) (v.e 2 + w.e 2)

/-- Source `vec3::operator*=(double t)` (src/Vec3.cpp): the three statements
`e[0] *= t; e[1] *= t; e[2] *= t;`, returning the updated object. -/
def vec3.mulAssign (v : vec3) (t : ℚ) : vec3 :=
  vec3.mk3 (v.e 0 * t) (v.e 1 * t) (v.e 2 * t)

/-- Source `vec3::operator/=(double t)` (src/Vec3.cpp):
`return *this *= 1/t;`. -/
def vec3.divAssign (v : vec3) (t : ℚ) : vec3 := v.mulAssign (1 / t)

/-- Source `vec3::length_squared()` (src/Vec3.cpp):
`return e[0]*e[0] + e[1]*e[1] + e[2]*e[2];`. -/
def vec3.length_squared (v : vec3) : ℚ :=
  v.e 0 * v.e 0 + v.e 1 * v.e 1 + v.e 2 * v.e 2

/-- Source `vec3::length()` (src/Vec3.cpp):
`return std::sqrt(length_squared());`; the square root lives in ℝ. -/
noncomputable def vec3.length (v : vec3) : ℝ :=
  Real.sqrt ((v.length_squared : ℚ) : ℝ)

/-- State-passing view of the const member call `v.x()`: its body only reads
`e[0]` (src/Vec3.cpp) and `const` forbids writes, so the call pairs the
returned value with the unchanged receiver. -/
def vec3.xCall (v : vec3) : ℚ × vec3 := (v.x, v)

/-- State-passing view of the const member call `v.y()`. -/
def vec3.yCall (v : vec3) : ℚ × vec3 := (v.y, v)

/-- State-passing view of the const member call `v.z()`. -/
def vec3.zCall (v : vec3) : ℚ × vec3 := (v.z, v)

/-- State-passing view of the const member call `v[i]` (const overload). -/
def vec3.getCall (v : vec3) (i : Fin 3) : ℚ × vec3 := (v.get i, v)

/-- State-passing view of the const member call `-v`: the body builds a fresh
`vec3` from negated components and does not touch the receiver. -/
def vec3.negCall (v : vec3) : vec3 × vec3 := (v.neg, v)

/-- State-passing view of the const member call `v.length()`. -/
noncomputable def vec3.lengthCall (v : vec3) : ℝ × vec3 := (v.length, v)

/-- State-passing view of the const member call `v.length_squared()`. -/
def vec3.lengthSquaredCall (v : vec3) : ℚ × vec3 := (v.length_squared, v)

/-- Modelled from the spec: the free (non-member) operator `vector + vector`
declared in the missing `Vec3.h` header — "Free (non-member) operations, all
pure and returning new values: vector+vector", component-wise. -/
def vadd (u v : vec3) : vec3 :=
  vec3.mk3 (u.e 0 + v.e 0) (u.e 1 + v.e 1) (u.e 2 + v.e 2)

/-- Modelled from the spec: the free operator `vector − vector` from the
missing `Vec3.h` header, component-wise. -/
def vsub (u v : vec3) : vec3 :=
  vec3.mk3 (u.e 0 - v.e 0) (u.e 1 - v.e 1) (u.e 2 - v.e 2)

/-- Modelled from the spec: the free operator `scalar * vector` from the
missing `Vec3.h` header, scaling each component. -/
def smul (t : ℚ) (v : vec3) : vec3 :=
  vec3.mk3 (t * v.e 0) (t * v.e 1) (t * v.e 2)

/-- Embedding of the C++ `Ray` class (src/Ray.h): members `orig` and `dir`,
both `vec3` stored by value; the class has no mutating member. -/
structure Ray where
  orig : vec3
  dir : vec3

/-- Source `Ray() = default` (src/Ray.h): the `vec3` members are initialized
by `vec3::vec3()`, so origin and direction are both zero. -/
def Ray.defaultRay : Ray := ⟨vec3.zero, vec3.zero⟩

/-- Source `Ray::origin()` (src/Ray.h): `return orig;`. -/
def Ray.origin (r : Ray) : vec3 := r.orig

/-- Source `Ray::direction()` (src/Ray.h): `return dir;`. -/
def Ray.direction (r : Ray) : vec3 := r.dir

/-- Source `Ray::at(double t)` (src/Ray.h): `return orig + t*dir;` (the name
`at` is a Lean keyword, hence the prime). -/
def Ray.at' (r : Ray) (t : ℚ) : vec3 := vadd r.orig (smul t r.dir)

/-- Modelled from the spec: the 8-bit channel conversion inside
`Color::write_color`, which is declared in src/Color.h but whose defining
Color.cpp is absent from the sources — "converts each component to an 8-bit
intensity via floor(255.999 * component)", with no clamping. -/
def colorComponent (c : ℚ) : ℤ := Int.floor ((255999 / 1000 : ℚ) * c)

/-- Modelled from the spec: the output `Color::write_color` produces for one
pixel — "writes the three resulting integers in decimal, space-separated,
one pixel per line, in R G B order". -/
def write_color (pixel_color : vec3) : String :=
  toString (colorComponent pixel_color.x) ++ " " ++
    toString (colorComponent pixel_color.y) ++ " " ++
    toString (colorComponent pixel_color.z) ++ "\n"

/-- Modelled from the spec: main.cpp is absent from the sources; §4.4 step 1
derives the image height as `max(1, round(image_width / aspect_ratio))`. -/
def image_height (image_width ratio : ℚ) : ℤ :=
  max 1 (round (image_width / ratio))

/-- Modelled from the spec's words for the C10 refinement comparison:
component-wise division of a vector by the scalar `t`. -/
def vec3.divAssignSpec (v : vec3) (t : ℚ) : vec3 :=
  vec3.mk3 (v.e 0 / t) (v.e 1 / t) (v.e 2 / t)

lemma vec3.ext3 (u v : vec3) (h0 : u.e 0 = v.e 0) (h1 : u.e 1 = v.e 1)
    (h2 : u.e 2 = v.e 2) : u = v := by
  cases u
  cases v
  congr 1
  funext i
  fin_cases i <;> assumption

@[simp] lemma vec3.mk3_e0 (a b c : ℚ) : (vec3.mk3 a b c).e 0 = a := rfl

@[simp] lemma vec3.mk3_e1 (a b c : ℚ) : (vec3.mk3 a b c).e 1 = b := rfl

@[simp] lemma vec3.mk3_e2 (a b c : ℚ) : (vec3.mk3 a b c).e 2 = c := rfl

/-- C1: for every ray `r` and every parameter `t` (negative included),
`r.at(t)` returns `r.origin() + t * r.direction()`; in particular `at(0)`
is the origin and `at(1)` is origin plus direction. -/
theorem ray_at_eval (r : Ray) (t : ℚ) :
    r.at' t = vadd r.origin (smul t r.direction) ∧
    r.at' 0 = r.origin ∧
    r.at' 1 = vadd r.origin r.direction := by
  refine ⟨rfl, ?_, ?_⟩ <;>
    apply vec3.ext3 <;> simp [Ray.at', Ray.origin, Ray.direction, vadd, smul]

lemma write_color_const (q : ℚ) (n : ℤ) (h : colorComponent q = n) :
    write_color (vec3.mk3 q q q) =
      toString n ++ " " ++ toString n ++ " " ++ toString n ++ "\n" := by
  rw [write_color]
  simp [vec3.x, vec3.y, vec3.z, h]

/-- C2: `write_color` maps each component `c` to `floor(255.999 * c)` with no
clamping and writes the three integers in decimal, space separated, one pixel
per line, in R G B order; on (1,1,1) it outputs `255 255 255`, on (0,0,0)
`0 0 0`, and on (0.5,0.5,0.5) `127 127 127`. -/
theorem write_color_spec :
    (∀ c : vec3, write_color c =
      toString (Int.floor ((255999 / 1000 : ℚ) * c.x)) ++ " " ++
        toString (Int.floor ((255999 / 1000 : ℚ) * c.y)) ++ " " ++
        toString (Int.floor ((255999 / 1000 : ℚ) * c.z)) ++ "\n") ∧
    write_color (vec3.mk3 1 1 1) = "255 255 255\n" ∧
    write_color (vec3.mk3 0 0 0) = "0 0 0\n" ∧
    write_color (vec3.mk3 (1/2) (1/2) (1/2)) = "127 127 127\n" := by
  refine ⟨fun c => rfl, ?_, ?_, ?_⟩
  · rw [write_color_const 1 255 (by norm_num [colorComponent])]
    rfl
  · rw [write_color_const 0 0 (by norm_num [colorComponent])]
    rfl
  · rw [write_color_const (1/2) 127
      (by norm_num [colorComponent, Int.floor_eq_iff])]
    rfl

/-- C3 as stated is false: over exact arithmetic there is no ray and no pair
of parameters at which `at(t1) + at(t2) - at(0)` differs from `at(t1+t2)`. -/
theorem at_affine_identity_never_fails :
    ¬ ∃ (r : Ray) (t1 t2 : ℚ),
      vsub (vadd (r.at' t1) (r.at' t2)) (r.at' 0) ≠ r.at' (t1 + t2) := by
  push_neg
  intro r t1 t2
  apply vec3.ext3 <;> simp [Ray.at', vadd, vsub, smul] <;> ring

/-- C3 amended: the combination `at(t1) + at(t2) - at(0)` always equals
`at(t1+t2)` (the map is affine in `t`), while plain additivity
`at(t1) + at(t2) == at(t1+t2)` does fail for some ray, e.g. one whose origin
is (1,0,0): the sanity check must target the version without the `- at(0)`
correction. -/
theorem at_affine_not_additive :
    (∀ (r : Ray) (t1 t2 : ℚ),
      vsub (vadd (r.at' t1) (r.at' t2)) (r.at' 0) = r.at' (t1 + t2)) ∧
    (∃ (r : Ray) (t1 t2 : ℚ), vadd (r.at' t1) (r.at' t2) ≠ r.at' (t1 + t2)) := by
  constructor
  · intro r t1 t2
    apply vec3.ext3 <;> simp [Ray.at', vadd, vsub, smul] <;> ring
  · refine ⟨⟨vec3.mk3 1 0 0, vec3.zero⟩, 0, 0, ?_⟩
    intro h
    have h0 := congrArg (fun u => u.e 0) h
    norm_num [Ray.at', vadd, smul, vec3.zero] at h0

/-- C4: in the state-passing view of member calls, `x()`, `y()`, `z()`, the
const index operator, unary negation, `length()` and `length_squared()` leave
the receiver's components unchanged on every vector, while each of the three
compound assignments does mutate the receiver for some input. -/
theorem vec3_calls_frame :
    (∀ v : vec3, v.xCall.2 = v ∧ v.yCall.2 = v ∧ v.zCall.2 = v ∧
      (∀ i : Fin 3, (v.getCall i).2 = v) ∧ v.negCall.2 = v ∧
      v.lengthCall.2 = v ∧ v.lengthSquaredCall.2 = v) ∧
    (∃ v w : vec3, v.addAssign w ≠ v) ∧
    (∃ (v : vec3) (t : ℚ), v.mulAssign t ≠ v) ∧
    (∃ (v : vec3) (t : ℚ), v.divAssign t ≠ v) := by
  refine ⟨fun v => ⟨rfl, rfl, rfl, fun i => rfl, rfl, rfl, rfl⟩, ?_, ?_, ?_⟩
  · refine ⟨vec3.zero, vec3.mk3 1 1 1, fun h => ?_⟩
    have h0 := congrArg (fun u => u.e 0) h
    norm_num [vec3.addAssign, vec3.zero] at h0
  · refine ⟨vec3.mk3 1 1 1, 2, fun h => ?_⟩
    have h0 := congrArg (fun u => u.e 0) h
    norm_num [vec3.mulAssign] at h0
  · refine ⟨vec3.mk3 1 1 1, 2, fun h => ?_⟩
    have h0 := congrArg (fun u => u.e 0) h
    norm_num [vec3.divAssign, vec3.mulAssign] at h0

/-- C5: read index access returns the i-th component (0 is x, 1 is y, 2 is z)
and writing through the non-const index operator at `i` replaces exactly that
component; the precondition i ∈ {0,1,2} is carried by the index type `Fin 3`,
under which every access is total — no error branch exists. -/
theorem vec3_index_access (v : vec3) (i : Fin 3) (a : ℚ) :
    v.get i = (if i = 0 then v.x else if i = 1 then v.y else v.z) ∧
    (v.set i a).get i = a ∧
    (∀ j : Fin 3, j ≠ i → (v.set i a).get j = v.get j) := by
  refine ⟨?_, ?_, ?_⟩
  · fin_cases i <;> simp [vec3.get, vec3.x, vec3.y, vec3.z]
  · simp [vec3.get, vec3.set]
  · intro j hj
    simp [vec3.get, vec3.set, Function.update_noteq hj]

/-- Witness for C5 at a concrete vector: writing 5 at index 0 leaves the
component at index 1 unchanged. -/
theorem vec3_index_access_witness :
    ((vec3.mk3 1 2 3).set 0 5).get 1 = (vec3.mk3 1 2 3).get 1 :=
  (vec3_index_access (vec3.mk3 1 2 3) 0 5).2.2 1 (by decide)

/-- C6: `length_squared()` is the sum of squared components (no square root
anywhere in its value) and `length()` is the square root of
`length_squared()`. -/
theorem length_squared_length_spec (v : vec3) :
    v.length_squared = v.x * v.x + v.y * v.y + v.z * v.z ∧
    v.length = Real.sqrt ((v.length_squared : ℚ) : ℝ) :=
  ⟨rfl, rfl⟩

/-- C8: the default-constructed ray has zero origin and zero direction, and a
ray constructed from an (origin, direction) pair stores both by value, its
accessors returning exactly the construction arguments. -/
theorem ray_ctor_spec (o d : vec3) :
    Ray.defaultRay.origin = vec3.mk3 0 0 0 ∧
    Ray.defaultRay.direction = vec3.mk3 0 0 0 ∧
    (Ray.mk o d).origin = o ∧
    (Ray.mk o d).direction = d :=
  ⟨rfl, rfl, rfl, rfl⟩

/-- C9: for every positive image width and aspect ratio, the derived
`image_height = max(1, round(image_width / aspect_ratio))` is at least 1. -/
theorem image_height_ge_one (image_width ratio : ℚ)
    (hw : 0 < image_width) (hr : 0 < ratio) :
    1 ≤ image_height image_width ratio :=
  le_max_left 1 (round (image_width / ratio))

/-- Witness for C9 at width 1 and aspect ratio 1000, where the quotient
1/1000 rounds to 0 and the clamp to 1 takes effect. -/
theorem image_height_ge_one_witness :
    0 < (1 : ℚ) ∧ 0 < (1000 : ℚ) ∧ 1 ≤ image_height 1 1000 :=
  ⟨by norm_num, by norm_num,
    image_height_ge_one 1 1000 (by norm_num) (by norm_num)⟩

/-- C10: `operator/=` is implemented as `*this *= 1/t`, and over exact
arithmetic with `t ≠ 0` this equals component-wise division by `t`. -/
theorem div_assign_refines_division (v : vec3) (t : ℚ) (ht : t ≠ 0) :
    v.divAssign t = v.mulAssign (1 / t) ∧
    v.divAssign t = v.divAssignSpec t := by
  refine ⟨rfl, ?_⟩
  apply vec3.ext3 <;>
    simp [vec3.divAssign, vec3.mulAssign, vec3.divAssignSpec,
      div_eq_mul_inv, one_div]

/-- Witness for C10 at the vector (1,2,3) and divisor 2. -/
theorem div_assign_refines_division_witness :
    (vec3.mk3 1 2 3).divAssign 2 = (vec3.mk3 1 2 3).divAssignSpec 2 :=
  (div_assign_refines_division (vec3.mk3 1 2 3) 2 (by norm_num)).2

end RayTracer
